import Mathlib

/-!
Verification of the physics / collision / level-streaming core of a
"Geometry Dash"-style side-scrolling platformer (source: src/web/main.js).

The embedding is shallow: JavaScript numbers are modelled as rationals
(the arithmetic operations used by the core are +, -, *, /, min, max,
abs and comparisons, all exact on ℚ); JS objects become Lean structures;
mutation becomes explicit state passing.  Absent / `undefined` fields of
the free-form `properties` maps become `Option ℚ`, with `??` modelled by
`Option.getD`.  The one transcendental quantity, the smoothing factor
`1 - Math.exp(-dt * 6)` of `Level.update`, is passed as an explicit
parameter `smoothing`; for `dt ≥ 0` it lies in `[0, 1)`, which is proved
separately over ℝ (`smoothing_factor_mem_unit`).  The `while` loop of the
segment recycler is modelled with an explicit fuel parameter; theorems
quantify over all fuel values, hence cover whatever finite number of
iterations the loop performs.  Random template selection is modelled by
an arbitrary choice stream `pick : Nat → SegmentTemplate`.
-/

namespace GD

/-- World height constant (720) from the top of main.js. -/
def WORLD_HEIGHT : ℚ := 720

/-- Floor line: WORLD_HEIGHT - 120 = 600. -/
def FLOOR_Y : ℚ := WORLD_HEIGHT - 120

/-- Ceiling line: 120. -/
def CEILING_Y : ℚ := 120

/-- Side length of the square player hitbox. -/
def PLAYER_SIZE : ℚ := 64

/-- Axis-aligned rectangle, as in class Rectangle. -/
structure Rectangle where
  x : ℚ
  y : ℚ
  width : ℚ
  height : ℚ
deriving DecidableEq

/-- Left edge accessor. -/
def Rectangle.left (r : Rectangle) : ℚ := r.x

/-- Right edge accessor. -/
def Rectangle.right (r : Rectangle) : ℚ := r.x + r.width

/-- Top edge accessor. -/
def Rectangle.top (r : Rectangle) : ℚ := r.y

/-- Bottom edge accessor. -/
def Rectangle.bottom (r : Rectangle) : ℚ := r.y + r.height

/-- Horizontal center accessor. -/
def Rectangle.centerX (r : Rectangle) : ℚ := r.x + r.width / 2

/-- Vertical center accessor. -/
def Rectangle.centerY (r : Rectangle) : ℚ := r.y + r.height / 2

/-- Rectangle.intersects from main.js: negation of the four separating
conditions, each a non-strict comparison, so touching edges do not count. -/
def Rectangle.intersects (a b : Rectangle) : Bool :=
  !(decide (a.right ≤ b.left) ||
    decide (a.left ≥ b.right) ||
    decide (a.bottom ≤ b.top) ||
    decide (a.top ≥ b.bottom))

/-- Circle, as in class Circle. -/
structure Circle where
  x : ℚ
  y : ℚ
  radius : ℚ
deriving DecidableEq

/-- Circle.intersectsRect from main.js: clamp the center into the rect and
compare squared distance with squared radius (non-strict). -/
def Circle.intersectsRect (c : Circle) (rect : Rectangle) : Bool :=
  let closestX := max rect.left (min c.x rect.right)
  let closestY := max rect.top (min c.y rect.bottom)
  let dx := c.x - closestX
  let dy := c.y - closestY
  decide (dx * dx + dy * dy ≤ c.radius * c.radius)

/-- The slice of InputManager state the simulation reads. -/
structure InputState where
  jumpQueue : Nat
  jumpPressedThisFrame : Bool
  jumpHeld : Bool
  pointerHeld : Bool
deriving DecidableEq

/-- InputManager.consumeJumpRequest: returns true and clears the queue when
presses are pending. -/
def InputState.consumeJumpRequest (i : InputState) : Bool × InputState :=
  if i.jumpQueue > 0 then (true, { i with jumpQueue := 0 }) else (false, i)

/-- InputManager.isJumpHeld: keyboard hold OR pointer hold. -/
def InputState.isJumpHeld (i : InputState) : Bool :=
  i.jumpHeld || i.pointerHeld

/-- InputManager.didPressJumpThisFrame. -/
def InputState.didPressJumpThisFrame (i : InputState) : Bool :=
  i.jumpPressedThisFrame

/-- An input with nothing pressed or held. -/
def InputState.idle : InputState :=
  { jumpQueue := 0, jumpPressedThisFrame := false, jumpHeld := false, pointerHeld := false }

/-- Player state, the fields of class Player that the simulation uses
(the asset handle is rendering-only and omitted). -/
structure Player where
  anchorX : ℚ
  size : ℚ
  posX : ℚ
  posY : ℚ
  prevX : ℚ
  prevY : ℚ
  velX : ℚ
  velY : ℚ
  gravityDirection : ℚ
  gravity : ℚ
  maxFallSpeed : ℚ
  maxRiseSpeed : ℚ
  jumpStrength : ℚ
  coyoteTime : ℚ
  jumpBufferTime : ℚ
  coyoteTimer : ℚ
  jumpBuffer : ℚ
  isGrounded : Bool
  isAlive : Bool
  boostTimer : ℚ
  speedMultiplier : ℚ
  gravityScaleDuringBoost : ℚ
  respawnY : ℚ
deriving DecidableEq

/-- The Player constructor. -/
def Player.init : Player :=
  { anchorX := 260
    size := PLAYER_SIZE
    posX := 260
    posY := FLOOR_Y - PLAYER_SIZE / 2
    prevX := 260
    prevY := FLOOR_Y - PLAYER_SIZE / 2
    velX := 0
    velY := 0
    gravityDirection := 1
    gravity := 2200
    maxFallSpeed := 1800
    maxRiseSpeed := 1200
    jumpStrength := 900
    coyoteTime := 0.08
    jumpBufferTime := 0.12
    coyoteTimer := 0
    jumpBuffer := 0
    isGrounded := false
    isAlive := true
    boostTimer := 0
    speedMultiplier := 1
    gravityScaleDuringBoost := 0.65
    respawnY := FLOOR_Y - PLAYER_SIZE / 2 }

/-- Player.reset from main.js. -/
def Player.reset (p : Player) : Player :=
  { p with
    posX := p.anchorX
    posY := FLOOR_Y - p.size / 2
    prevX := p.anchorX
    prevY := FLOOR_Y - p.size / 2
    velX := 0
    velY := 0
    gravityDirection := 1
    isGrounded := false
    isAlive := true
    coyoteTimer := 0
    jumpBuffer := 0
    boostTimer := 0
    speedMultiplier := 1 }

/-- Half the hitbox size (getter halfSize). -/
def Player.halfSize (p : Player) : ℚ := p.size / 2

/-- Player.getBounds: the square hitbox centered at the position. -/
def Player.getBounds (p : Player) : Rectangle :=
  { x := p.posX - p.halfSize, y := p.posY - p.halfSize, width := p.size, height := p.size }

/-- Player.getPreviousBounds. -/
def Player.getPreviousBounds (p : Player) : Rectangle :=
  { x := p.prevX - p.halfSize, y := p.prevY - p.halfSize, width := p.size, height := p.size }

/-- Player.update from main.js: consume a queued jump press into the jump
buffer, integrate gravity (with the boost gravity scale while boosting),
clamp vertical velocity, integrate position, decay the jump buffer,
coyote timer and boost timer, and reset the speed multiplier when the
boost expires.  No-op when dead.  Returns the player and the input (whose
jump queue may have been consumed). -/
def Player.update (p : Player) (dt : ℚ) (input : InputState) : Player × InputState :=
  if p.isAlive then
    let consumed := input.consumeJumpRequest
    let p := if consumed.1 then { p with jumpBuffer := p.jumpBufferTime } else p
    let p := { p with prevX := p.posX, prevY := p.posY }
    let gravityScale := if p.boostTimer > 0 then p.gravityScaleDuringBoost else 1
    let gravityForce := p.gravity * p.gravityDirection * gravityScale
    let vy := min p.maxFallSpeed (max (-p.maxRiseSpeed) (p.velY + gravityForce * dt))
    let p := { p with
      velY := vy
      posY := p.posY + vy * dt
      jumpBuffer := max 0 (p.jumpBuffer - dt)
      coyoteTimer := max 0 (p.coyoteTimer - dt) }
    let p :=
      if p.boostTimer > 0 then
        let bt := max 0 (p.boostTimer - dt)
        { p with boostTimer := bt, speedMultiplier := if bt = 0 then 1 else p.speedMultiplier }
      else p
    (p, consumed.2)
  else (p, input)

/-- Player.performJump: impulse of the given strength opposite gravity,
clearing grounded state and the coyote timer. -/
def Player.performJump (p : Player) (strength : ℚ) : Player :=
  { p with velY := -strength * p.gravityDirection, isGrounded := false, coyoteTimer := 0 }

/-- Player.performOrbJump (same body as performJump, with the orb power). -/
def Player.performOrbJump (p : Player) (power : ℚ) : Player :=
  { p with velY := -power * p.gravityDirection, isGrounded := false, coyoteTimer := 0 }

/-- Player.postResolve: after collision resolution, an alive player with a
pending jump buffer who is grounded or within the coyote window performs
the buffered jump and the buffer is cleared. -/
def Player.postResolve (p : Player) : Player :=
  if p.isAlive then
    if p.jumpBuffer > 0 ∧ (p.isGrounded ∨ p.coyoteTimer > 0) then
      { p.performJump p.jumpStrength with jumpBuffer := 0 }
    else p
  else p

/-- Player.land: snap to the surface offset by halfSize away from gravity,
zero vertical velocity, set grounded, refresh the coyote timer. -/
def Player.land (p : Player) (surfaceY : ℚ) : Player :=
  let p :=
    if p.gravityDirection = 1 then { p with posY := surfaceY - p.halfSize }
    else { p with posY := surfaceY + p.halfSize }
  { p with velY := 0, isGrounded := true, coyoteTimer := p.coyoteTime }

/-- Player.die. -/
def Player.die (p : Player) : Player :=
  { p with isAlive := false }

/-- The argument object of Player.applyBoost; absent fields are none. -/
structure Boost where
  multiplier : Option ℚ
  duration : Option ℚ
  gravityScale : Option ℚ
deriving DecidableEq

/-- Player.applyBoost: max of existing and requested multiplier (default 1)
and duration (default 0); a truthy (present and nonzero) gravityScale
overrides gravityScaleDuringBoost. -/
def Player.applyBoost (p : Player) (b : Boost) : Player :=
  let p := { p with
    speedMultiplier := max (b.multiplier.getD 1) p.speedMultiplier
    boostTimer := max (b.duration.getD 0) p.boostTimer }
  match b.gravityScale with
  | some gs => if gs = 0 then p else { p with gravityScaleDuringBoost := gs }
  | none => p

/-- Player.flipGravity: no-op when the target equals the current direction;
otherwise flip, zero vertical velocity, clamp the position into the band
legal for the new direction, and clear grounded and coyote state.  The
`??` default (no argument) flips to the opposite direction. -/
def Player.flipGravity (p : Player) (targetDirection : Option ℚ) : Player :=
  let newDirection := targetDirection.getD (-p.gravityDirection)
  if newDirection = p.gravityDirection then p
  else
    let p := { p with gravityDirection := newDirection, velY := 0 }
    let p :=
      if newDirection = 1 then { p with posY := min p.posY (FLOOR_Y - p.halfSize) }
      else { p with posY := max p.posY (CEILING_Y + p.halfSize) }
    { p with isGrounded := false, coyoteTimer := 0 }

/-- Spike orientation; the code tests orientation === 'up' and treats any
other value as the downward profile. -/
inductive Orientation
  | up
  | down
deriving DecidableEq

/-- Entity type tag of a segment entity. -/
inductive EntityType
  | platform
  | spike
  | booster
  | orb
  | portal
deriving DecidableEq

/-- The free-form per-entity properties map; absent keys are none. -/
structure Properties where
  multiplier : Option ℚ := none
  duration : Option ℚ := none
  gravityScale : Option ℚ := none
  power : Option ℚ := none
  cooldown : Option ℚ := none
  gravity : Option ℚ := none
deriving DecidableEq

/-- An entity blueprint inside a segment template. -/
structure EntityTemplate where
  type : EntityType
  x : ℚ
  y : ℚ
  width : Option ℚ := none
  height : Option ℚ := none
  radius : Option ℚ := none
  orientation : Option Orientation := none
  properties : Properties := {}
deriving DecidableEq

/-- A live SegmentEntity instance (class SegmentEntity). -/
structure SegmentEntity where
  type : EntityType
  x : ℚ
  y : ℚ
  width : ℚ
  height : ℚ
  radius : ℚ
  orientation : Orientation
  properties : Properties
  cooldown : ℚ
deriving DecidableEq

/-- The SegmentEntity constructor: apply the ?? defaults of main.js and start
with cooldown 0 (new instances are also reset, which keeps cooldown 0). -/
def SegmentEntity.ofTemplate (t : EntityTemplate) : SegmentEntity :=
  { type := t.type, x := t.x, y := t.y
    width := t.width.getD 0, height := t.height.getD 0, radius := t.radius.getD 0
    orientation := t.orientation.getD .up, properties := t.properties, cooldown := 0 }

/-- SegmentEntity.updateCooldown. -/
def SegmentEntity.updateCooldown (e : SegmentEntity) (dt : ℚ) : SegmentEntity :=
  if e.cooldown > 0 then { e with cooldown := max 0 (e.cooldown - dt) } else e

/-- A segment template: a width and an ordered entity blueprint list. -/
structure SegmentTemplate where
  width : ℚ
  entities : List EntityTemplate
deriving DecidableEq

/-- A live level segment (class LevelSegment): template reference, live
entity instances and a world offset. -/
structure LevelSegment where
  template : SegmentTemplate
  entities : List SegmentEntity
  offset : ℚ
deriving DecidableEq

/-- Construct a LevelSegment from a template and reset it to an offset
(new LevelSegment(template) followed by segment.reset(offset)). -/
def LevelSegment.ofTemplate (t : SegmentTemplate) (offset : ℚ) : LevelSegment :=
  { template := t, entities := t.entities.map SegmentEntity.ofTemplate, offset := offset }

/-- The end getter of LevelSegment: offset + template.width. -/
def LevelSegment.end_ (s : LevelSegment) : ℚ := s.offset + s.template.width

/-- Level state (class Level); the constructor values are in
Level.ofTemplates below. -/
structure Level where
  templates : List SegmentTemplate
  activeSegments : List LevelSegment
  baseSpeed : ℚ
  currentSpeed : ℚ
  scrollX : ℚ
  viewportWorldWidth : ℚ
  recycleMargin : ℚ
deriving DecidableEq

/-- The Level constructor. -/
def Level.ofTemplates (templates : List SegmentTemplate) : Level :=
  { templates := templates, activeSegments := [], baseSpeed := 360,
    currentSpeed := 360, scrollX := 0, viewportWorldWidth := 1280,
    recycleMargin := 640 }

/-- The segment-building loop of Level.reset: count segments starting at the
given loop index and offset, picking templates[index % templates.length]
(out-of-range indexing cannot occur for a nonempty library; getD supplies a
junk template for the empty-library case, where the JS code would throw). -/
def Level.buildSegments (templates : List SegmentTemplate) :
    Nat → ℚ → Nat → List LevelSegment
  | _, _, 0 => []
  | index, offset, Nat.succ n =>
    let template := templates.getD (index % templates.length) { width := 0, entities := [] }
    LevelSegment.ofTemplate template offset ::
      Level.buildSegments templates (index + 1) (offset + template.width) n

/-- Level.reset: zero the scroll, restore the base speed, and build 4
fresh segments laid end to end from offset 0. -/
def Level.reset (lv : Level) : Level :=
  { lv with
    scrollX := 0
    currentSpeed := lv.baseSpeed
    activeSegments := Level.buildSegments lv.templates 0 0 4 }

/-- The end of the last active segment (0 for an empty list, which the loop
never queries). -/
def lastEnd (segs : List LevelSegment) : ℚ :=
  (segs.getLast?.map LevelSegment.end_).getD 0

/-- The while-loop of Level.update: while the first segment ends behind the
threshold, shift it off, rebuild it from a newly picked template, reposition
it to follow the current last segment, and push it to the back.  The loop is
given explicit fuel; pick k is the template chosen at iteration k.  When the
shifted list is empty the JS lastSegment alias points at the recycled
segment itself, whose template was already reassigned, hence the special
first case of newOffset. -/
def Level.recycleLoop (pick : Nat → SegmentTemplate) (threshold : ℚ) :
    Nat → Nat → List LevelSegment → List LevelSegment
  | _, 0, segs => segs
  | k, Nat.succ fuel, segs =>
    match segs with
    | [] => []
    | first :: rest =>
      if first.end_ < threshold then
        let template := pick k
        let newOffset :=
          match rest with
          | [] => first.offset + template.width
          | _ :: _ => lastEnd rest
        Level.recycleLoop pick threshold (k + 1) fuel
          (rest ++ [LevelSegment.ofTemplate template newOffset])
      else first :: rest

/-- Level.update: smooth the current speed toward baseSpeed multiplied by the
player speed multiplier, advance scrollX, then run the recycler against the
threshold scrollX - recycleMargin.  smoothing stands for the quantity
1 - Math.exp(-dt * 6) of the source. -/
def Level.update (lv : Level) (dt : ℚ) (smoothing : ℚ) (playerSpeedMultiplier : ℚ)
    (pick : Nat → SegmentTemplate) (fuel : Nat) : Level :=
  let targetSpeed := lv.baseSpeed * playerSpeedMultiplier
  let currentSpeed := lv.currentSpeed + (targetSpeed - lv.currentSpeed) * smoothing
  let scrollX := lv.scrollX + currentSpeed * dt
  let recycleThreshold := scrollX - lv.recycleMargin
  { lv with
    currentSpeed := currentSpeed
    scrollX := scrollX
    activeSegments := Level.recycleLoop pick recycleThreshold 0 fuel lv.activeSegments }

/-- Adjacency invariant: every segment after the first starts where its
predecessor ends. -/
def segmentsChained : List LevelSegment → Prop
  | [] => True
  | [_] => True
  | a :: b :: rest => b.offset = a.end_ ∧ segmentsChained (b :: rest)



/-- Broad-phase rectangle overlap of the player against an entity rect
placed at the segment offset (Level.#checkEntityOverlap). -/
def Level.checkEntityOverlap (playerRect : Rectangle) (offset : ℚ) (e : SegmentEntity) : Bool :=
  playerRect.intersects { x := offset + e.x, y := e.y, width := e.width, height := e.height }

/-- Orb collision via circle-vs-rect (Level.#checkOrbCollision). -/
def Level.checkOrbCollision (playerRect : Rectangle) (offset : ℚ) (e : SegmentEntity) : Bool :=
  Circle.intersectsRect { x := offset + e.x, y := e.y, radius := e.radius } playerRect

/-- Spike collision (Level.#checkSpikeCollision): rectangular broad phase,
then the triangular profile test against the sloped hazard line at the
player's horizontal center. -/
def Level.checkSpikeCollision (playerRect : Rectangle) (offset : ℚ) (e : SegmentEntity) : Bool :=
  let rect : Rectangle := { x := offset + e.x, y := e.y, width := e.width, height := e.height }
  if playerRect.intersects rect then
    let relativeX := (playerRect.centerX - rect.left) / rect.width
    match e.orientation with
    | .up => decide (playerRect.bottom ≥ rect.bottom - |relativeX - 1/2| * rect.height * 2)
    | .down => decide (playerRect.top ≤ rect.top + |relativeX - 1/2| * rect.height * 2)
  else false

/-- Platform resolution (Level.#resolvePlatform): land only when approaching
from the side opposite gravity, with the velocity-scaled tolerance 0.02.
Returns the player and the (possibly refreshed) current player rect. -/
def Level.resolvePlatform (p : Player) (e : SegmentEntity) (offset : ℚ)
    (currentRect previousRect : Rectangle) : Player × Rectangle :=
  let rect : Rectangle := { x := offset + e.x, y := e.y, width := e.width, height := e.height }
  if currentRect.intersects rect then
    if p.gravityDirection = 1 then
      if previousRect.bottom ≤ rect.top + |p.velY| * (2/100) ∧ rect.top ≤ currentRect.bottom then
        let q := p.land rect.top
        (q, q.getBounds)
      else (p, currentRect)
    else
      if rect.bottom - |p.velY| * (2/100) ≤ previousRect.top ∧ currentRect.top ≤ rect.bottom then
        let q := p.land rect.bottom
        (q, q.getBounds)
      else (p, currentRect)
  else (p, currentRect)

/-- The mutable state threaded through the entity loop of
Level.resolvePlayer: the player, the current player rect, and whether the
function has early-returned after a fatal spike hit. -/
structure ResolveState where
  player : Player
  rect : Rectangle
  dead : Bool
deriving DecidableEq

/-- One iteration of the entity loop of Level.resolvePlayer: update the
entity cooldown, then dispatch on the entity type.  When the state is dead
the JS function has already returned, so nothing further happens. -/
def Level.resolveEntity (input : InputState) (dt : ℚ) (offset : ℚ)
    (previousRect : Rectangle) (st : ResolveState) (e : SegmentEntity) :
    ResolveState × SegmentEntity :=
  if st.dead then (st, e)
  else
    let e := e.updateCooldown dt
    match e.type with
    | .platform =>
      let pr := Level.resolvePlatform st.player e offset st.rect previousRect
      ({ st with player := pr.1, rect := pr.2 }, e)
    | .spike =>
      if Level.checkSpikeCollision st.rect offset e then
        ({ st with player := st.player.die, dead := true }, e)
      else (st, e)
    | .booster =>
      if Level.checkEntityOverlap st.rect offset e ∧ e.cooldown = 0 then
        let b : Boost :=
          { multiplier := some (e.properties.multiplier.getD 1.2)
            duration := some (e.properties.duration.getD 1)
            gravityScale := some (e.properties.gravityScale.getD 0.7) }
        ({ st with player := st.player.applyBoost b },
          { e with cooldown := ((e.properties.cooldown.or e.properties.duration).getD 1) + 0.2 })
      else (st, e)
    | .orb =>
      if e.cooldown = 0 ∧ Level.checkOrbCollision st.rect offset e then
        if input.didPressJumpThisFrame || input.isJumpHeld then
          ({ st with player := st.player.performOrbJump (e.properties.power.getD 1000) },
            { e with cooldown := e.properties.cooldown.getD 0.3 })
        else (st, e)
      else (st, e)
    | .portal =>
      if Level.checkEntityOverlap st.rect offset e ∧ e.cooldown = 0 then
        let q := st.player.flipGravity e.properties.gravity
        ({ st with player := q, rect := q.getBounds },
          { e with cooldown := e.properties.cooldown.getD 0.8 })
      else (st, e)

/-- The entity loop over one segment's entity list, threading the resolve
state and collecting the (possibly cooldown-mutated) entities. -/
def Level.resolveEntities (input : InputState) (dt : ℚ) (offset : ℚ)
    (previousRect : Rectangle) :
    ResolveState → List SegmentEntity → ResolveState × List SegmentEntity
  | st, [] => (st, [])
  | st, e :: rest =>
    let r1 := Level.resolveEntity input dt offset previousRect st e
    let r2 := Level.resolveEntities input dt offset previousRect r1.1 rest
    (r2.1, r1.2 :: r2.2)

/-- The segment loop of Level.resolvePlayer: segments outside the
visible-plus-margin window are skipped entirely (their entities are not even
cooldown-updated). -/
def Level.resolveSegments (input : InputState) (dt : ℚ) (previousRect : Rectangle)
    (visibleStart visibleEnd : ℚ) :
    ResolveState → List LevelSegment → ResolveState × List LevelSegment
  | st, [] => (st, [])
  | st, seg :: rest =>
    if seg.end_ < visibleStart ∨ seg.offset > visibleEnd then
      let r := Level.resolveSegments input dt previousRect visibleStart visibleEnd st rest
      (r.1, seg :: r.2)
    else
      let r1 := Level.resolveEntities input dt seg.offset previousRect st seg.entities
      let r2 := Level.resolveSegments input dt previousRect visibleStart visibleEnd r1.1 rest
      (r2.1, { seg with entities := r1.2 } :: r2.2)

/-- Level.resolvePlayer: pre-clamp against floor/ceiling, run the segment
loop, and (unless a spike ended the frame early) re-validate that a grounded
player is not left penetrating the floor or ceiling. -/
def Level.resolvePlayer (lv : Level) (p : Player) (input : InputState) (dt : ℚ) :
    Player × Level :=
  let playerRect := p.getBounds
  let previousRect := p.getPreviousBounds
  let pr :=
    if p.gravityDirection = 1 then
      if playerRect.bottom ≥ FLOOR_Y then
        let q := p.land FLOOR_Y
        (q, q.getBounds)
      else (p, playerRect)
    else
      if playerRect.top ≤ CEILING_Y then
        let q := p.land CEILING_Y
        (q, q.getBounds)
      else (p, playerRect)
  let visibleStart := lv.scrollX - lv.recycleMargin
  let visibleEnd := lv.scrollX + lv.viewportWorldWidth + lv.recycleMargin
  let res := Level.resolveSegments input dt previousRect visibleStart visibleEnd
    { player := pr.1, rect := pr.2, dead := false } lv.activeSegments
  let lv2 := { lv with activeSegments := res.2 }
  if res.1.dead then (res.1.player, lv2)
  else
    let q := res.1.player
    let q :=
      if q.isGrounded ∧ q.gravityDirection = 1 ∧ FLOOR_Y < q.getBounds.bottom
      then q.land FLOOR_Y else q
    let q :=
      if q.isGrounded ∧ q.gravityDirection = -1 ∧ q.getBounds.top < CEILING_Y
      then q.land CEILING_Y else q
    (q, lv2)

/-- Fields of the player that Player.update never changes. -/
lemma Player.update_const (p : Player) (dt : ℚ) (i : InputState) :
    ((p.update dt i).1).isAlive = p.isAlive ∧
    ((p.update dt i).1).gravityDirection = p.gravityDirection ∧
    ((p.update dt i).1).jumpStrength = p.jumpStrength ∧
    ((p.update dt i).1).coyoteTime = p.coyoteTime ∧
    ((p.update dt i).1).jumpBufferTime = p.jumpBufferTime ∧
    ((p.update dt i).1).isGrounded = p.isGrounded ∧
    ((p.update dt i).1).size = p.size ∧
    ((p.update dt i).1).gravityScaleDuringBoost = p.gravityScaleDuringBoost := by
  simp only [Player.update]
  repeat' split
  all_goals simp

/-- Player.update is the identity on a dead player. -/
lemma Player.update_dead (p : Player) (dt : ℚ) (i : InputState)
    (h : p.isAlive = false) : (p.update dt i).1 = p := by
  simp [Player.update, h]

/-- Coyote timer after an alive update step. -/
lemma Player.update_coyoteTimer (p : Player) (dt : ℚ) (i : InputState)
    (h : p.isAlive = true) :
    ((p.update dt i).1).coyoteTimer = max 0 (p.coyoteTimer - dt) := by
  simp only [Player.update, h]
  repeat' split
  all_goals simp_all

/-- Jump buffer after an alive update step: a pending press refreshes the
buffer to jumpBufferTime before the decay by dt. -/
lemma Player.update_jumpBuffer (p : Player) (dt : ℚ) (i : InputState)
    (h : p.isAlive = true) :
    ((p.update dt i).1).jumpBuffer =
      max 0 ((if 0 < i.jumpQueue then p.jumpBufferTime else p.jumpBuffer) - dt) := by
  simp only [Player.update, InputState.consumeJumpRequest, h]
  repeat' split
  all_goals simp_all

/-- Boost timer after an alive update step. -/
lemma Player.update_boostTimer (p : Player) (dt : ℚ) (i : InputState)
    (h : p.isAlive = true) :
    ((p.update dt i).1).boostTimer =
      if 0 < p.boostTimer then max 0 (p.boostTimer - dt) else p.boostTimer := by
  simp only [Player.update, h]
  repeat' split
  all_goals simp_all

/-- Speed multiplier after an alive update step. -/
lemma Player.update_speedMultiplier (p : Player) (dt : ℚ) (i : InputState)
    (h : p.isAlive = true) :
    ((p.update dt i).1).speedMultiplier =
      if 0 < p.boostTimer ∧ max 0 (p.boostTimer - dt) = 0 then 1
      else p.speedMultiplier := by
  simp only [Player.update, h]
  repeat' split
  all_goals simp_all

/-- C1: for every alive player, after collision resolution, if jumpBuffer > 0
and (isGrounded or coyoteTimer > 0), Player.postResolve consumes the buffer
(jumpBuffer becomes 0), applies the impulse velocity.y =
-jumpStrength * gravityDirection, and clears isGrounded and coyoteTimer. -/
theorem claim_C1_buffered_jump (p : Player)
    (hAlive : p.isAlive = true)
    (hBuf : p.jumpBuffer > 0)
    (hReady : p.isGrounded = true ∨ p.coyoteTimer > 0) :
    (p.postResolve).jumpBuffer = 0 ∧
    (p.postResolve).velY = -p.jumpStrength * p.gravityDirection ∧
    (p.postResolve).isGrounded = false ∧
    (p.postResolve).coyoteTimer = 0 := by
  simp [Player.postResolve, Player.performJump, hAlive, hBuf, hReady]

/-- C1 witness: a player with gravityDirection = 1 standing on the floor who
pressed jump ends postResolve with velocity.y = -900 = -jumpStrength and
isGrounded = false. -/
theorem claim_C1_buffered_jump_witness :
    (({ Player.init with isGrounded := true, jumpBuffer := 0.12 } : Player).postResolve).velY = -900 ∧
    (({ Player.init with isGrounded := true, jumpBuffer := 0.12 } : Player).postResolve).isGrounded = false := by
  have h := claim_C1_buffered_jump
    { Player.init with isGrounded := true, jumpBuffer := 0.12 }
    rfl (by norm_num) (Or.inl rfl)
  refine ⟨?_, h.2.2.1⟩
  rw [h.2.1]
  norm_num [Player.init]

/-- C3: Player.land always zeroes velocity.y, sets isGrounded, refreshes the
coyote timer to coyoteTime, and snaps position.y to surfaceY - halfSize for
gravityDirection = 1 and surfaceY + halfSize for gravityDirection = -1. -/
theorem claim_C3_land (p : Player) (surfaceY : ℚ) :
    (p.land surfaceY).velY = 0 ∧
    (p.land surfaceY).isGrounded = true ∧
    (p.land surfaceY).coyoteTimer = p.coyoteTime ∧
    (p.gravityDirection = 1 → (p.land surfaceY).posY = surfaceY - p.halfSize) ∧
    (p.gravityDirection = -1 → (p.land surfaceY).posY = surfaceY + p.halfSize) := by
  by_cases h : p.gravityDirection = 1
  · simp [Player.land, h]
    exact fun hc => absurd hc (by norm_num)
  · simp [Player.land, h]

/-- C3 witness: landing Player.init on the floor line from gravity +1. -/
theorem claim_C3_land_witness :
    (Player.init.land FLOOR_Y).velY = 0 ∧
    (Player.init.land FLOOR_Y).posY = FLOOR_Y - Player.init.halfSize := by
  have h := claim_C3_land Player.init FLOOR_Y
  exact ⟨h.1, h.2.2.2.1 rfl⟩

/-- C8: Rectangle.intersects is false under each of the four non-strict
separating conditions, in particular when two rectangles share exactly an
edge, and it is true exactly when the horizontal and vertical open intervals
of the two rectangles overlap (all four strict inequalities hold). -/
theorem claim_C8_intersects :
    (∀ a b : Rectangle,
      (a.right ≤ b.left ∨ a.left ≥ b.right ∨ a.bottom ≤ b.top ∨ a.top ≥ b.bottom) →
      a.intersects b = false) ∧
    (∀ a b : Rectangle, a.right = b.left → a.intersects b = false) ∧
    (∀ a b : Rectangle, a.intersects b = true ↔
      (b.left < a.right ∧ a.left < b.right ∧ b.top < a.bottom ∧ a.top < b.bottom)) := by
  refine ⟨?_, ?_, ?_⟩
  · intro a b h
    simp only [Rectangle.intersects]
    rcases h with h | h | h | h <;> simp [h]
  · intro a b h
    simp [Rectangle.intersects, le_of_eq h]
  · intro a b
    simp only [Rectangle.intersects, Bool.not_eq_true', Bool.not_eq_false,
      Bool.or_eq_false_iff, decide_eq_false_iff_not, not_le, ge_iff_le]
    tauto

/-- C8 witness: two unit squares sharing exactly the edge x = 1 do not
intersect, while two genuinely overlapping unit squares do. -/
theorem claim_C8_intersects_witness :
    Rectangle.intersects ⟨0, 0, 1, 1⟩ ⟨1, 0, 1, 1⟩ = false ∧
    Rectangle.intersects ⟨0, 0, 1, 1⟩ ⟨1/2, 0, 1, 1⟩ = true := by
  constructor
  · exact claim_C8_intersects.2.1 ⟨0, 0, 1, 1⟩ ⟨1, 0, 1, 1⟩ (by norm_num [Rectangle.right, Rectangle.left])
  · exact (claim_C8_intersects.2.2 ⟨0, 0, 1, 1⟩ ⟨1/2, 0, 1, 1⟩).2
      (by norm_num [Rectangle.right, Rectangle.left, Rectangle.top, Rectangle.bottom])

/-- C5: Player.flipGravity with the current direction as target is a no-op;
with the opposite target it flips the direction, zeroes velocity.y, clamps
position.y into the band legal for the new direction, and clears grounded
and coyote state. -/
theorem claim_C5_flip_gravity (p : Player) :
    (∀ t, t = p.gravityDirection → p.flipGravity (some t) = p) ∧
    (p.gravityDirection = 1 →
      ((p.flipGravity (some (-1))).gravityDirection = -1 ∧
       (p.flipGravity (some (-1))).velY = 0 ∧
       CEILING_Y + p.halfSize ≤ (p.flipGravity (some (-1))).posY ∧
       (p.flipGravity (some (-1))).isGrounded = false ∧
       (p.flipGravity (some (-1))).coyoteTimer = 0)) ∧
    (p.gravityDirection = -1 →
      ((p.flipGravity (some 1)).gravityDirection = 1 ∧
       (p.flipGravity (some 1)).velY = 0 ∧
       (p.flipGravity (some 1)).posY ≤ FLOOR_Y - p.halfSize ∧
       (p.flipGravity (some 1)).isGrounded = false ∧
       (p.flipGravity (some 1)).coyoteTimer = 0)) := by
  refine ⟨fun t ht => by simp [Player.flipGravity, ht], ?_, ?_⟩
  · intro h
    have hne : ¬((-1 : ℚ) = p.gravityDirection) := by rw [h]; norm_num
    have hne1 : ¬((-1 : ℚ) = 1) := by norm_num
    simp [Player.flipGravity, hne, hne1, Player.halfSize]
  · intro h
    have hne : ¬((1 : ℚ) = p.gravityDirection) := by rw [h]; norm_num
    simp [Player.flipGravity, hne, Player.halfSize]

/-- C5 witness: a portal with gravity -1 flips Player.init from direction +1,
zeroing velocity.y and clamping position.y to at least CEILING_Y + halfSize. -/
theorem claim_C5_flip_gravity_witness :
    (Player.init.flipGravity (some (-1))).gravityDirection = -1 ∧
    (Player.init.flipGravity (some (-1))).velY = 0 ∧
    CEILING_Y + Player.init.halfSize ≤ (Player.init.flipGravity (some (-1))).posY := by
  have h := (claim_C5_flip_gravity Player.init).2.1 rfl
  exact ⟨h.1, h.2.1, h.2.2.1⟩

/-- C10: a boost whose gravityScale field is absent or zero leaves
gravityScaleDuringBoost unchanged while speedMultiplier and boostTimer are
still updated by the max rule. -/
theorem claim_C10_falsy_gravity_scale (p : Player) (b : Boost)
    (h : b.gravityScale = none ∨ b.gravityScale = some 0) :
    (p.applyBoost b).gravityScaleDuringBoost = p.gravityScaleDuringBoost ∧
    (p.applyBoost b).speedMultiplier = max (b.multiplier.getD 1) p.speedMultiplier ∧
    (p.applyBoost b).boostTimer = max (b.duration.getD 0) p.boostTimer := by
  rcases h with h | h <;> simp [Player.applyBoost, h]

/-- C10 witness: a boost with gravityScale 0 keeps gravityScaleDuringBoost at
its previous value while updating multiplier and timer. -/
theorem claim_C10_falsy_gravity_scale_witness :
    (Player.init.applyBoost ⟨some 2, some 1, some 0⟩).gravityScaleDuringBoost
      = Player.init.gravityScaleDuringBoost ∧
    (Player.init.applyBoost ⟨some 2, some 1, some 0⟩).speedMultiplier
      = max ((some (2 : ℚ)).getD 1) Player.init.speedMultiplier := by
  have h := claim_C10_falsy_gravity_scale Player.init ⟨some 2, some 1, some 0⟩ (Or.inr rfl)
  exact ⟨h.1, h.2.1⟩

/-- Speed multiplier after applyBoost, through the gravityScale branches. -/
lemma Player.applyBoost_speedMultiplier (p : Player) (b : Boost) :
    (p.applyBoost b).speedMultiplier = max (b.multiplier.getD 1) p.speedMultiplier := by
  cases h : b.gravityScale <;> simp only [Player.applyBoost, h] <;> (try split) <;> simp

/-- Boost timer after applyBoost, through the gravityScale branches. -/
lemma Player.applyBoost_boostTimer (p : Player) (b : Boost) :
    (p.applyBoost b).boostTimer = max (b.duration.getD 0) p.boostTimer := by
  cases h : b.gravityScale <;> simp only [Player.applyBoost, h] <;> (try split) <;> simp

/-- One update step preserves the property that an expired boost implies a
unit speed multiplier. -/
lemma Player.update_boost_inv (p : Player) (dt : ℚ) (i : InputState)
    (h : p.boostTimer = 0 → p.speedMultiplier = 1) :
    ((p.update dt i).1).boostTimer = 0 → ((p.update dt i).1).speedMultiplier = 1 := by
  by_cases ha : p.isAlive = true
  · rw [Player.update_boostTimer _ _ _ ha, Player.update_speedMultiplier _ _ _ ha]
    by_cases hb : 0 < p.boostTimer
    · intro hz
      rw [if_pos hb] at hz
      rw [if_pos ⟨hb, hz⟩]
    · intro hz
      rw [if_neg hb] at hz
      rw [if_neg (fun hc => absurd hc.1 hb)]
      exact h hz
  · rw [Player.update_dead _ _ _ (by simpa using ha)]
    exact h

/-- The expired-boost invariant is preserved along any fold of update steps. -/
lemma Player.foldl_update_boost_inv (steps : List (ℚ × InputState)) (p : Player)
    (h : p.boostTimer = 0 → p.speedMultiplier = 1) :
    (steps.foldl (fun q s => (q.update s.1 s.2).1) p).boostTimer = 0 →
    (steps.foldl (fun q s => (q.update s.1 s.2).1) p).speedMultiplier = 1 := by
  induction steps generalizing p with
  | nil => exact h
  | cons s rest ih => exact ih _ (Player.update_boost_inv _ _ _ h)

/-- C6: applyBoost combines boosts by max, so applying a second boost never
drops speedMultiplier or boostTimer below what either boost alone would
produce; and once the boost timer has decayed to 0 through update steps, the
speed multiplier is back to exactly 1. -/
theorem claim_C6_boost_max_monotone :
    (∀ (p : Player) (b1 b2 : Boost),
      (p.applyBoost b1).speedMultiplier ≤ ((p.applyBoost b1).applyBoost b2).speedMultiplier ∧
      (p.applyBoost b2).speedMultiplier ≤ ((p.applyBoost b1).applyBoost b2).speedMultiplier ∧
      (p.applyBoost b1).boostTimer ≤ ((p.applyBoost b1).applyBoost b2).boostTimer ∧
      (p.applyBoost b2).boostTimer ≤ ((p.applyBoost b1).applyBoost b2).boostTimer) ∧
    (∀ (p : Player) (steps : List (ℚ × InputState)),
      0 < p.boostTimer →
      (steps.foldl (fun q s => (q.update s.1 s.2).1) p).boostTimer = 0 →
      (steps.foldl (fun q s => (q.update s.1 s.2).1) p).speedMultiplier = 1) := by
  constructor
  · intro p b1 b2
    simp only [Player.applyBoost_speedMultiplier, Player.applyBoost_boostTimer]
    refine ⟨le_max_right _ _, ?_, le_max_right _ _, ?_⟩
    · exact max_le_max (le_refl _) (le_max_right _ _)
    · exact max_le_max (le_refl _) (le_max_right _ _)
  · intro p steps h0 hz
    exact Player.foldl_update_boost_inv steps p (fun hc => absurd hc (by linarith)) hz

/-- C6 witness: a player boosted for 1 second whose boost timer has fully
decayed after a 1-second step is back to speed multiplier exactly 1. -/
theorem claim_C6_boost_max_monotone_witness :
    (([((1 : ℚ), InputState.idle)]).foldl
      (fun (q : Player) (s : ℚ × InputState) => (q.update s.1 s.2).1)
      { Player.init with boostTimer := 1, speedMultiplier := 2 }).speedMultiplier = 1 := by
  have h2 : (([((1 : ℚ), InputState.idle)]).foldl
      (fun (q : Player) (s : ℚ × InputState) => (q.update s.1 s.2).1)
      { Player.init with boostTimer := 1, speedMultiplier := 2 }).boostTimer = 0 := by
    rw [List.foldl_cons, List.foldl_nil, Player.update_boostTimer _ _ _ rfl]
    norm_num
  exact claim_C6_boost_max_monotone.2 _ _ (by norm_num) h2

/-- Along a fold of update steps with idle input, an alive player stays
alive, keeps gravity direction, jump strength, coyote time and jump buffer
time, and the coyote timer decays by at most the total elapsed time. -/
lemma Player.foldl_update_idle_facts (dts : List ℚ) (p : Player)
    (h : p.isAlive = true) :
    ((dts.foldl (fun (q : Player) d => (q.update d InputState.idle).1) p).isAlive = true) ∧
    ((dts.foldl (fun (q : Player) d => (q.update d InputState.idle).1) p).gravityDirection
        = p.gravityDirection) ∧
    ((dts.foldl (fun (q : Player) d => (q.update d InputState.idle).1) p).jumpStrength
        = p.jumpStrength) ∧
    ((dts.foldl (fun (q : Player) d => (q.update d InputState.idle).1) p).coyoteTime
        = p.coyoteTime) ∧
    ((dts.foldl (fun (q : Player) d => (q.update d InputState.idle).1) p).jumpBufferTime
        = p.jumpBufferTime) ∧
    (p.coyoteTimer - dts.sum
        ≤ (dts.foldl (fun (q : Player) d => (q.update d InputState.idle).1) p).coyoteTimer) := by
  induction dts generalizing p with
  | nil => simpa using h
  | cons d rest ih =>
    have hc := Player.update_const p d InputState.idle
    have hct := Player.update_coyoteTimer p d InputState.idle h
    have ih2 := ih ((p.update d InputState.idle).1) (by rw [hc.1, h])
    simp only [List.foldl_cons, List.sum_cons]
    refine ⟨ih2.1, ?_, ?_, ?_, ?_, ?_⟩
    · rw [ih2.2.1, hc.2.1]
    · rw [ih2.2.2.1, hc.2.2.1]
    · rw [ih2.2.2.2.1, hc.2.2.2.1]
    · rw [ih2.2.2.2.2.1, hc.2.2.2.2.1]
    · have h1 := ih2.2.2.2.2.2
      rw [hct] at h1
      have h2 : p.coyoteTimer - d ≤ max 0 (p.coyoteTimer - d) := le_max_right _ _
      linarith

/-- C7: a player who was grounded and just became airborne (coyote timer
still at coyoteTime) can jump within the coyote window: after idle update
steps followed by a frame whose input carries a queued jump press, with
total elapsed time below coyoteTime, Player.postResolve still performs the
grounded jump with the full jumpStrength impulse. -/
theorem claim_C7_coyote_jump (p : Player) (dts : List ℚ) (dtLast : ℚ) (i : InputState)
    (hAlive : p.isAlive = true)
    (hAir : p.isGrounded = false)
    (hCoyote : p.coyoteTimer = p.coyoteTime)
    (hdts : ∀ d ∈ dts, 0 ≤ d)
    (hLast : 0 ≤ dtLast)
    (hElapsed : dts.sum + dtLast < p.coyoteTime)
    (hWindow : p.coyoteTime ≤ p.jumpBufferTime)
    (hPress : 0 < i.jumpQueue) :
    (((((dts.foldl (fun (q : Player) d => (q.update d InputState.idle).1) p).update
        dtLast i).1).postResolve).velY = -p.jumpStrength * p.gravityDirection) ∧
    (((((dts.foldl (fun (q : Player) d => (q.update d InputState.idle).1) p).update
        dtLast i).1).postResolve).isGrounded = false) ∧
    (((((dts.foldl (fun (q : Player) d => (q.update d InputState.idle).1) p).update
        dtLast i).1).postResolve).jumpBuffer = 0) := by
  have hsum : 0 ≤ dts.sum := List.sum_nonneg hdts
  have hmid := Player.foldl_update_idle_facts dts p hAlive
  set mid := dts.foldl (fun (q : Player) d => (q.update d InputState.idle).1) p with hmiddef
  have hfinc := Player.update_const mid dtLast i
  have hfinct := Player.update_coyoteTimer mid dtLast i hmid.1
  have hfinjb := Player.update_jumpBuffer mid dtLast i hmid.1
  set fin := (mid.update dtLast i).1 with hfindef
  have hctpos : 0 < fin.coyoteTimer := by
    rw [hfinct]
    have h1 : p.coyoteTime - dts.sum - dtLast ≤ mid.coyoteTimer - dtLast := by
      have := hmid.2.2.2.2.2
      rw [hCoyote] at this
      linarith
    have h2 : mid.coyoteTimer - dtLast ≤ max 0 (mid.coyoteTimer - dtLast) := le_max_right _ _
    linarith
  have hjbpos : 0 < fin.jumpBuffer := by
    rw [hfinjb, if_pos hPress, hmid.2.2.2.2.1]
    have h1 : 0 < p.jumpBufferTime - dtLast := by linarith
    have h2 : p.jumpBufferTime - dtLast ≤ max 0 (p.jumpBufferTime - dtLast) := le_max_right _ _
    linarith
  have hfalive : fin.isAlive = true := by rw [hfinc.1, hmid.1]
  have hres : fin.postResolve =
      { fin.performJump fin.jumpStrength with jumpBuffer := 0 } := by
    rw [Player.postResolve, if_pos hfalive]
    rw [if_pos ⟨hjbpos, Or.inr hctpos⟩]
  rw [hres]
  have hgs : fin.jumpStrength = p.jumpStrength := by rw [hfinc.2.2.1, hmid.2.2.1]
  have hgd : fin.gravityDirection = p.gravityDirection := by rw [hfinc.2.1, hmid.2.1]
  refine ⟨?_, rfl, rfl⟩
  show -fin.jumpStrength * fin.gravityDirection = -p.jumpStrength * p.gravityDirection
  rw [hgs, hgd]

/-- C7 witness: Player.init, freshly off a ledge with a full coyote timer,
jumps with the full impulse when the press arrives 0.04s after leaving. -/
theorem claim_C7_coyote_jump_witness :
    (((([((1 : ℚ)/50)].foldl
        (fun (q : Player) d => (q.update d InputState.idle).1)
        { Player.init with coyoteTimer := Player.init.coyoteTime }).update (1/50)
        { jumpQueue := 1, jumpPressedThisFrame := true, jumpHeld := true,
          pointerHeld := false }).1).postResolve).isGrounded = false := by
  have h := claim_C7_coyote_jump
    { Player.init with coyoteTimer := Player.init.coyoteTime }
    [(1 : ℚ)/50] (1/50)
    { jumpQueue := 1, jumpPressedThisFrame := true, jumpHeld := true, pointerHeld := false }
    rfl rfl rfl
    (by intro d hd; rw [List.mem_singleton] at hd; rw [hd]; norm_num)
    (by norm_num)
    (by norm_num [Player.init])
    (by norm_num [Player.init])
    (by norm_num)
  exact h.2.1

/-- The tail of a chained segment list is chained. -/
lemma segmentsChained_tail : ∀ {l : List LevelSegment} {a : LevelSegment},
    segmentsChained (a :: l) → segmentsChained l
  | [], _, _ => trivial
  | _ :: _, _, h => h.2

/-- lastEnd ignores the head of a list with at least two elements. -/
lemma lastEnd_cons_cons (a b : LevelSegment) (l : List LevelSegment) :
    lastEnd (a :: b :: l) = lastEnd (b :: l) := by
  simp [lastEnd]

/-- Appending a segment that starts at the current last end keeps the chain. -/
lemma segmentsChained_append_last :
    ∀ (l : List LevelSegment) (s : LevelSegment), l ≠ [] → segmentsChained l →
      s.offset = lastEnd l → segmentsChained (l ++ [s])
  | [], _, h, _, _ => absurd rfl h
  | [a], s, _, _, hoff => by
      refine ⟨?_, trivial⟩
      rw [hoff]
      simp [lastEnd, LevelSegment.end_]
  | a :: b :: rest, s, _, hch, hoff => by
      simp only [List.cons_append]
      refine ⟨hch.1, ?_⟩
      have := segmentsChained_append_last (b :: rest) s (by simp) hch.2
        (by rw [hoff, lastEnd_cons_cons])
      simpa using this

/-- The recycler preserves the number of active segments. -/
lemma recycleLoop_length (pick : Nat → SegmentTemplate) (threshold : ℚ) :
    ∀ (fuel k : Nat) (segs : List LevelSegment),
      (Level.recycleLoop pick threshold k fuel segs).length = segs.length := by
  intro fuel
  induction fuel with
  | zero => intro k segs; rfl
  | succ n ih =>
    intro k segs
    cases segs with
    | nil => rfl
    | cons first rest =>
      simp only [Level.recycleLoop]
      split
      · rw [ih]
        simp
      · rfl

/-- The recycler preserves the adjacency chain. -/
lemma recycleLoop_chained (pick : Nat → SegmentTemplate) (threshold : ℚ) :
    ∀ (fuel k : Nat) (segs : List LevelSegment), segmentsChained segs →
      segmentsChained (Level.recycleLoop pick threshold k fuel segs) := by
  intro fuel
  induction fuel with
  | zero => intro k segs h; exact h
  | succ n ih =>
    intro k segs h
    cases segs with
    | nil => trivial
    | cons first rest =>
      simp only [Level.recycleLoop]
      split
      · cases rest with
        | nil => exact ih _ _ trivial
        | cons b bs =>
          refine ih _ _ ?_
          exact segmentsChained_append_last (b :: bs) _ (by simp) h.2 rfl
      · exact h

/-- Each freshly built segment list from Level.reset is chained. -/
lemma buildSegments_chained (templates : List SegmentTemplate) :
    ∀ (n index : Nat) (offset : ℚ),
      segmentsChained (Level.buildSegments templates index offset n) := by
  intro n
  induction n with
  | zero => intro idx off; trivial
  | succ m ih =>
    intro idx off
    cases m with
    | zero => exact trivial
    | succ j =>
      simp only [Level.buildSegments]
      refine ⟨?_, ?_⟩
      · simp [LevelSegment.ofTemplate, LevelSegment.end_]
      · have := ih (idx + 1)
          (off + (templates.getD (idx % templates.length) { width := 0, entities := [] }).width)
        simpa [Level.buildSegments] using this

/-- Level.reset builds exactly n segments for fuel n. -/
lemma buildSegments_length (templates : List SegmentTemplate) :
    ∀ (n index : Nat) (offset : ℚ),
      (Level.buildSegments templates index offset n).length = n := by
  intro n
  induction n with
  | zero => intro idx off; rfl
  | succ m ih =>
    intro idx off
    simp only [Level.buildSegments, List.length_cons, ih]

/-- The active segments after an update step are the recycled ones. -/
lemma Level.update_activeSegments (lv : Level) (dt s m : ℚ)
    (pick : Nat → SegmentTemplate) (fuel : Nat) :
    (lv.update dt s m pick fuel).activeSegments =
      Level.recycleLoop pick
        (lv.scrollX + (lv.currentSpeed + (lv.baseSpeed * m - lv.currentSpeed) * s) * dt
          - lv.recycleMargin)
        0 fuel lv.activeSegments := rfl

/-- C2: after Level.reset there are exactly 4 active segments laid end to
end, and any sequence of Level.update steps (arbitrary dt, smoothing,
player speed multiplier, template picks and recycle iterations) keeps
exactly 4 active segments with segments[i+1].offset = segments[i].end. -/
theorem claim_C2_segment_window (lv : Level)
    (steps : List (ℚ × ℚ × ℚ × (Nat → SegmentTemplate) × Nat)) :
    ((steps.foldl
      (fun (cur : Level) st => cur.update st.1 st.2.1 st.2.2.1 st.2.2.2.1 st.2.2.2.2)
      lv.reset).activeSegments.length = 4) ∧
    segmentsChained ((steps.foldl
      (fun (cur : Level) st => cur.update st.1 st.2.1 st.2.2.1 st.2.2.2.1 st.2.2.2.2)
      lv.reset).activeSegments) := by
  have hstep : ∀ (ss : List (ℚ × ℚ × ℚ × (Nat → SegmentTemplate) × Nat)) (l : Level),
      l.activeSegments.length = 4 → segmentsChained l.activeSegments →
      ((ss.foldl
        (fun (cur : Level) st => cur.update st.1 st.2.1 st.2.2.1 st.2.2.2.1 st.2.2.2.2)
        l).activeSegments.length = 4 ∧
      segmentsChained ((ss.foldl
        (fun (cur : Level) st => cur.update st.1 st.2.1 st.2.2.1 st.2.2.2.1 st.2.2.2.2)
        l).activeSegments)) := by
    intro ss
    induction ss with
    | nil => intro l h1 h2; exact ⟨h1, h2⟩
    | cons st rest ih =>
      intro l h1 h2
      rw [List.foldl_cons]
      refine ih _ ?_ ?_
      · rw [Level.update_activeSegments, recycleLoop_length, h1]
      · rw [Level.update_activeSegments]
        exact recycleLoop_chained _ _ _ _ _ h2
  refine hstep steps lv.reset ?_ ?_
  · simp only [Level.reset]
    exact buildSegments_length lv.templates 4 0 0
  · simp only [Level.reset]
    exact buildSegments_chained lv.templates 4 0 0

/-- One Level.update step keeps the current speed positive and never moves
scrollX backwards, given nonnegative dt, a smoothing factor in [0,1], a
speed multiplier at least 1 and a positive base speed. -/
lemma Level.update_speed_pos (lv : Level) (dt s m : ℚ)
    (pick : Nat → SegmentTemplate) (fuel : Nat)
    (hb : 0 < lv.baseSpeed) (hc : 0 < lv.currentSpeed)
    (hdt : 0 ≤ dt) (hs0 : 0 ≤ s) (hs1 : s ≤ 1) (hm : 1 ≤ m) :
    0 < (lv.update dt s m pick fuel).currentSpeed ∧
    lv.scrollX ≤ (lv.update dt s m pick fuel).scrollX ∧
    (lv.update dt s m pick fuel).baseSpeed = lv.baseSpeed := by
  have hcs : (lv.update dt s m pick fuel).currentSpeed =
      lv.currentSpeed + (lv.baseSpeed * m - lv.currentSpeed) * s := rfl
  have hsx : (lv.update dt s m pick fuel).scrollX =
      lv.scrollX + (lv.currentSpeed + (lv.baseSpeed * m - lv.currentSpeed) * s) * dt := rfl
  have ht : 0 < lv.baseSpeed * m := by nlinarith
  have hpos : 0 < lv.currentSpeed + (lv.baseSpeed * m - lv.currentSpeed) * s := by
    rcases eq_or_lt_of_le hs1 with h1 | h1
    · have : lv.currentSpeed + (lv.baseSpeed * m - lv.currentSpeed) * s
          = lv.baseSpeed * m := by rw [h1]; ring
      rw [this]
      exact ht
    · nlinarith [mul_pos hc (sub_pos.mpr h1), mul_nonneg ht.le hs0]
  refine ⟨by rw [hcs]; exact hpos, ?_, rfl⟩
  rw [hsx]
  nlinarith [mul_nonneg hpos.le hdt]

/-- C9: from any level state with positive base and current speed, along any
sequence of Level.update steps with nonnegative dt, smoothing factors in
[0,1] (which 1 - e^(-dt*6) always is, see smoothing_factor_mem_unit) and
player speed multipliers at least 1, scrollX never decreases and the
smoothed current speed stays positive. -/
theorem claim_C9_scroll_monotone :
    ∀ (steps : List (ℚ × ℚ × ℚ × (Nat → SegmentTemplate) × Nat)) (lv : Level),
      0 < lv.baseSpeed → 0 < lv.currentSpeed →
      (∀ st ∈ steps, 0 ≤ st.1 ∧ 0 ≤ st.2.1 ∧ st.2.1 ≤ 1 ∧ 1 ≤ st.2.2.1) →
      lv.scrollX ≤ ((steps.foldl
        (fun (cur : Level) st => cur.update st.1 st.2.1 st.2.2.1 st.2.2.2.1 st.2.2.2.2)
        lv).scrollX) ∧
      0 < ((steps.foldl
        (fun (cur : Level) st => cur.update st.1 st.2.1 st.2.2.1 st.2.2.2.1 st.2.2.2.2)
        lv).currentSpeed) := by
  intro steps
  induction steps with
  | nil => intro lv _ hc _; exact ⟨le_refl _, hc⟩
  | cons st rest ih =>
    intro lv hb hc hsteps
    obtain ⟨h1, h2, h3, h4⟩ := hsteps st (List.mem_cons_self st rest)
    have hstep := Level.update_speed_pos lv st.1 st.2.1 st.2.2.1 st.2.2.2.1 st.2.2.2.2
      hb hc h1 h2 h3 h4
    have ihr := ih (lv.update st.1 st.2.1 st.2.2.1 st.2.2.2.1 st.2.2.2.2)
      (by rw [hstep.2.2]; exact hb) hstep.1
      (fun x hx => hsteps x (List.mem_cons_of_mem _ hx))
    rw [List.foldl_cons]
    exact ⟨le_trans hstep.2.1 ihr.1, ihr.2⟩

/-- C9 witness: a fresh Level with one 1-second step at smoothing 1/2 and
multiplier 1 does not scroll backwards and keeps a positive speed. -/
theorem claim_C9_scroll_monotone_witness :
    (Level.ofTemplates []).scrollX ≤
      (([((1 : ℚ), (1 : ℚ)/2, (1 : ℚ), fun _ => ({ width := 0, entities := [] } : SegmentTemplate), (0 : Nat))]).foldl
        (fun (cur : Level) st => cur.update st.1 st.2.1 st.2.2.1 st.2.2.2.1 st.2.2.2.2)
        (Level.ofTemplates [])).scrollX := by
  refine (claim_C9_scroll_monotone _ (Level.ofTemplates []) ?_ ?_ ?_).1
  · norm_num [Level.ofTemplates]
  · norm_num [Level.ofTemplates]
  · intro st hst
    rw [List.mem_singleton] at hst
    rw [hst]
    refine ⟨by norm_num, by norm_num, by norm_num, by norm_num⟩

/-- For nonnegative dt the smoothing factor 1 - e^(-dt*6) of Level.update
lies in [0, 1), as assumed by the scroll monotonicity hypotheses. -/
lemma smoothing_factor_mem_unit (dt : ℝ) (h : 0 ≤ dt) :
    0 ≤ 1 - Real.exp (-(dt * 6)) ∧ 1 - Real.exp (-(dt * 6)) < 1 := by
  constructor
  · have h1 : Real.exp (-(dt * 6)) ≤ Real.exp 0 := Real.exp_le_exp.mpr (by nlinarith)
    rw [Real.exp_zero] at h1
    linarith
  · have h2 : 0 < Real.exp (-(dt * 6)) := Real.exp_pos _
    linarith

/-- updateCooldown never changes the entity type. -/
lemma SegmentEntity.updateCooldown_type (e : SegmentEntity) (dt : ℚ) :
    (e.updateCooldown dt).type = e.type := by
  simp only [SegmentEntity.updateCooldown]
  split <;> rfl

/-- Once the resolve state is dead (the JS function has returned), the
entity loop changes nothing. -/
lemma Level.resolveEntities_dead (input : InputState) (dt offset : ℚ)
    (prevRect : Rectangle) :
    ∀ (es : List SegmentEntity) (st : ResolveState), st.dead = true →
      Level.resolveEntities input dt offset prevRect st es = (st, es) := by
  intro es
  induction es with
  | nil => intro st h; rfl
  | cons e rest ih =>
    intro st h
    simp only [Level.resolveEntities, Level.resolveEntity, h, if_true]
    rw [ih st h]

/-- Once the resolve state is dead, the segment loop changes nothing. -/
lemma Level.resolveSegments_dead (input : InputState) (dt : ℚ)
    (prevRect : Rectangle) (visibleStart visibleEnd : ℚ) :
    ∀ (segs : List LevelSegment) (st : ResolveState), st.dead = true →
      Level.resolveSegments input dt prevRect visibleStart visibleEnd st segs = (st, segs) := by
  intro segs
  induction segs with
  | nil => intro st h; rfl
  | cons seg rest ih =>
    intro st h
    simp only [Level.resolveSegments]
    split
    · rw [ih st h]
    · rw [Level.resolveEntities_dead input dt seg.offset prevRect seg.entities st h]
      rw [ih st h]

/-- C4: a spike collision registers iff the broad-phase rectangle test
passes and the player's bottom edge has crossed the sloped hazard line
rect.bottom - |relativeX - 1/2| * height * 2 (orientation up); any spike
collision kills the player (die sets isAlive = false) and short-circuits
the rest of the entity loop and the rest of the frame's resolution; at
relativeX = 1/2 a player with bounds.bottom = rect.bottom collides, and a
player fully above the rect does not. -/
theorem claim_C4_spike_collision :
    (∀ (pr : Rectangle) (offset : ℚ) (e : SegmentEntity),
      e.orientation = Orientation.up →
      (Level.checkSpikeCollision pr offset e = true ↔
        (pr.intersects { x := offset + e.x, y := e.y, width := e.width, height := e.height } = true ∧
          Rectangle.bottom { x := offset + e.x, y := e.y, width := e.width, height := e.height }
              - |(pr.centerX - (offset + e.x)) / e.width - 1/2| * e.height * 2
            ≤ pr.bottom))) ∧
    (∀ (input : InputState) (dt offset : ℚ) (prevRect : Rectangle)
        (st : ResolveState) (e : SegmentEntity) (rest : List SegmentEntity),
      st.dead = false → e.type = EntityType.spike →
      Level.checkSpikeCollision st.rect offset (e.updateCooldown dt) = true →
      Level.resolveEntities input dt offset prevRect st (e :: rest) =
        ({ st with player := st.player.die, dead := true }, e.updateCooldown dt :: rest)) ∧
    (∀ p : Player, (p.die).isAlive = false) ∧
    (∀ (input : InputState) (dt : ℚ) (prevRect : Rectangle) (vs ve : ℚ)
        (st : ResolveState) (segs : List LevelSegment), st.dead = true →
      Level.resolveSegments input dt prevRect vs ve st segs = (st, segs)) ∧
    (Level.checkSpikeCollision { x := 0, y := 0, width := 64, height := 64 } 0
      { type := EntityType.spike, x := 0, y := 0, width := 64, height := 64, radius := 0,
        orientation := Orientation.up, properties := {}, cooldown := 0 } = true) ∧
    (Level.checkSpikeCollision { x := 0, y := -100, width := 64, height := 64 } 0
      { type := EntityType.spike, x := 0, y := 0, width := 64, height := 64, radius := 0,
        orientation := Orientation.up, properties := {}, cooldown := 0 } = false) := by
  refine ⟨?_, ?_, fun p => rfl, ?_, ?_, ?_⟩
  · intro pr off e hup
    simp only [Level.checkSpikeCollision, hup]
    by_cases hint :
        pr.intersects { x := off + e.x, y := e.y, width := e.width, height := e.height } = true
    · simp [hint, Rectangle.left, ge_iff_le]
    · simp [hint]
  · intro input dt offset prevRect st e rest hdead htype hcol
    have ht2 : (e.updateCooldown dt).type = EntityType.spike := by
      rw [SegmentEntity.updateCooldown_type, htype]
    have h1 : Level.resolveEntity input dt offset prevRect st e =
        ({ st with player := st.player.die, dead := true }, e.updateCooldown dt) := by
      rw [Level.resolveEntity, if_neg (by simp [hdead])]
      generalize hE : e.updateCooldown dt = e2 at ht2 hcol ⊢
      rcases e2 with ⟨ty, ex, ey, ew, eh, er, eo, eps, ec⟩
      subst ht2
      simp [hcol]
    simp only [Level.resolveEntities, h1]
    rw [Level.resolveEntities_dead input dt offset prevRect rest _ rfl]
  · intro input dt prevRect vs ve st segs h
    exact Level.resolveSegments_dead input dt prevRect vs ve segs st h
  · norm_num [Level.checkSpikeCollision, Rectangle.intersects, Rectangle.left,
      Rectangle.right, Rectangle.top, Rectangle.bottom, Rectangle.centerX]
  · norm_num [Level.checkSpikeCollision, Rectangle.intersects, Rectangle.left,
      Rectangle.right, Rectangle.top, Rectangle.bottom, Rectangle.centerX]

/-- C4 witness: resolving the entity list consisting of one apex-grazed
up-spike kills the player and leaves no further entity touched. -/
theorem claim_C4_spike_collision_witness :
    (Level.resolveEntities InputState.idle 0 0 { x := 0, y := 0, width := 64, height := 64 }
      { player := Player.init, rect := { x := 0, y := 0, width := 64, height := 64 }, dead := false }
      [{ type := EntityType.spike, x := 0, y := 0, width := 64, height := 64, radius := 0,
         orientation := Orientation.up, properties := {}, cooldown := 0 }]).1.player.isAlive
      = false := by
  have hcd :
      SegmentEntity.updateCooldown
        { type := EntityType.spike, x := 0, y := 0, width := 64, height := 64, radius := 0,
          orientation := Orientation.up, properties := {}, cooldown := 0 } 0
      = { type := EntityType.spike, x := 0, y := 0, width := 64, height := 64, radius := 0,
          orientation := Orientation.up, properties := {}, cooldown := 0 } := by
    simp [SegmentEntity.updateCooldown]
  have h := claim_C4_spike_collision.2.1 InputState.idle 0 0
    { x := 0, y := 0, width := 64, height := 64 }
    { player := Player.init, rect := { x := 0, y := 0, width := 64, height := 64 }, dead := false }
    { type := EntityType.spike, x := 0, y := 0, width := 64, height := 64, radius := 0,
      orientation := Orientation.up, properties := {}, cooldown := 0 }
    [] rfl rfl
    (by rw [hcd]; exact claim_C4_spike_collision.2.2.2.2.1)
  rw [h]
  rfl

end GD
